import Mathlib

/-!
Verification of the `ngraph_api.ops` binding layer (file `ngraph_api/ops.py`).

The layer is a set of factory functions that validate/normalize arguments and
forward them to native node constructors of the wrapped `pyngraph` engine,
plus a one-time, module-load registration of operator-overload hooks on the
native `Node` type.  The native engine itself (graph execution, shape/type
inference) is an external collaborator and out of scope; native constructors
are embedded as total record builders that record the operator and its
operands.  Helper modules of the repository that `ops.py` imports
(`ngraph_api.utils.broadcasting`, `.decorators`, `.input_validation`,
`.types`) are not part of the sources being verified; their definitions below
are modelled from the specification and are marked as such.
-/

namespace Ngraph

/-- Element types of the native engine's internal element-type enumeration. -/
inductive ElementType where
  | f32
  | f64
  | i32
  | i64
deriving DecidableEq, Repr

/-- NumericType tags accepted by the binding layer (e.g. `np.float32`), plus a
catch-all for tags the element-type lookup does not recognise. -/
inductive Dtype where
  | float32
  | float64
  | int32
  | int64
  | unsupported (s : String)
deriving DecidableEq, Repr

/-- A raw numeric or array literal (a `NumericData` value) that the layer can
lift into a Constant node. -/
inductive NumericData where
  | scalar (v : Int)
  | array (vs : List Int)
deriving DecidableEq, Repr

/-- One entry of a user-supplied TensorShape: either an integer dimension or a
non-integer value (e.g. the string "x"), which `parameter` must reject. -/
inductive ShapeEntry where
  | int (n : Int)
  | other (s : String)
deriving DecidableEq, Repr

/-- TensorShape: ordered sequence of dimension entries as supplied by callers. -/
abbrev TensorShape := List ShapeEntry

/-- Error conditions raised locally by the binding layer.  The spec's taxonomy
names a single local condition, `InvalidArgument`. -/
inductive NgraphError where
  | invalidArgument (msg : String)
deriving DecidableEq, Repr

mutual
/-- Handle to one vertex of the native computation graph: the operator that
built it, the engine-determined shape, and an optional user-assigned name
(`none` models the engine's default-generated name, which the binding layer
never inspects or produces). -/
inductive Node where
  | mk (op : Op) (shape : TensorShape) (name : Option String)

/-- The operator recorded in a native node, with its operand nodes. -/
inductive Op where
  | parameterOp (et : ElementType) (shape : TensorShape)
  | constantOp (value : NumericData) (dtype : Option Dtype)
  | absOp (n : Node)
  | sqrtOp (n : Node)
  | expOp (n : Node)
  | logOp (n : Node)
  | negativeOp (n : Node)
  | floorOp (n : Node)
  | ceilingOp (n : Node)
  | divideOp (l r : Node)
  | multiplyOp (l r : Node)
  | subtractOp (l r : Node)
  | addOp (l r : Node)
  | minimumOp (l r : Node)
  | maximumOp (l r : Node)
  | equalOp (l r : Node)
  | notEqualOp (l r : Node)
  | greaterOp (l r : Node)
  | greaterEqOp (l r : Node)
  | lessOp (l r : Node)
  | lessEqOp (l r : Node)
  | broadcastOp (n : Node) (newShape : TensorShape) (axes : Finset ℕ)
  | convertOp (n : Node) (et : ElementType)
end

/-- The operator stored in a node handle. -/
def Node.op : Node → Op
  | .mk o _ _ => o

/-- The engine-determined shape stored in a node handle. -/
def Node.shape : Node → TensorShape
  | .mk _ s _ => s

/-- The name stored in a node handle (`none` = engine default). -/
def Node.name : Node → Option String
  | .mk _ _ n => n

/-- The operand nodes of an operator, in order. -/
def Op.args : Op → List Node
  | .parameterOp _ _ => []
  | .constantOp _ _ => []
  | .absOp n => [n]
  | .sqrtOp n => [n]
  | .expOp n => [n]
  | .logOp n => [n]
  | .negativeOp n => [n]
  | .floorOp n => [n]
  | .ceilingOp n => [n]
  | .divideOp l r => [l, r]
  | .multiplyOp l r => [l, r]
  | .subtractOp l r => [l, r]
  | .addOp l r => [l, r]
  | .minimumOp l r => [l, r]
  | .maximumOp l r => [l, r]
  | .equalOp l r => [l, r]
  | .notEqualOp l r => [l, r]
  | .greaterOp l r => [l, r]
  | .greaterEqOp l r => [l, r]
  | .lessOp l r => [l, r]
  | .lessEqOp l r => [l, r]
  | .broadcastOp n _ _ => [n]
  | .convertOp n _ => [n]

/-- NodeInput: union of an existing Node handle and a raw numeric/array
literal that must be lifted into a Constant node before use. -/
inductive NodeInput where
  | node (n : Node)
  | raw (d : NumericData)

deriving instance DecidableEq for Node

deriving instance DecidableEq for Op

deriving instance DecidableEq for NodeInput

/-- Post-hoc name assignment used by the naming decorators: overwrite the
node's name when an explicit name was supplied, leave the handle untouched
otherwise. -/
def Node.setName (n : Node) (name : Option String) : Node :=
  match name with
  | none => n
  | some s => match n with | .mk op shape _ => .mk op shape (some s)

/-! ### Native constructors (`pyngraph`, external collaborator)

The native engine is out of scope: its constructors are embedded as total
builders that record the operator and its operand handles.  Result shapes are
the engine's business; here unary elementwise results reuse the operand's
shape (pass-through, spec section 8), binary elementwise results reuse the
left operand's shape (engine promotion is out of scope and no claim depends
on it), `Parameter` uses the given shape and `Broadcast` the target shape.
Freshly constructed nodes carry the engine's default-generated name,
modelled as `none`. -/

/-- Native `Parameter` constructor: unbound input placeholder. -/
def Parameter (et : ElementType) (shape : TensorShape) : Node :=
  .mk (.parameterOp et shape) shape none

/-- Native `Constant` constructor: node holding an immutable embedded value. -/
def Constant (value : NumericData) (dtype : Option Dtype) : Node :=
  .mk (.constantOp value dtype) [] none

/-- Native `Abs` constructor. -/
def Abs (n : Node) : Node := .mk (.absOp n) n.shape none

/-- Native `Sqrt` constructor. -/
def Sqrt (n : Node) : Node := .mk (.sqrtOp n) n.shape none

/-- Native `Exp` constructor. -/
def Exp (n : Node) : Node := .mk (.expOp n) n.shape none

/-- Native `Log` constructor. -/
def Log (n : Node) : Node := .mk (.logOp n) n.shape none

/-- Native `Negative` constructor. -/
def Negative (n : Node) : Node := .mk (.negativeOp n) n.shape none

/-- Native `Floor` constructor. -/
def Floor (n : Node) : Node := .mk (.floorOp n) n.shape none

/-- Native `Ceiling` constructor. -/
def Ceiling (n : Node) : Node := .mk (.ceilingOp n) n.shape none

/-- Native `Divide` constructor. -/
def Divide (l r : Node) : Node := .mk (.divideOp l r) l.shape none

/-- Native `Multiply` constructor. -/
def Multiply (l r : Node) : Node := .mk (.multiplyOp l r) l.shape none

/-- Native `Subtract` constructor. -/
def Subtract (l r : Node) : Node := .mk (.subtractOp l r) l.shape none

/-- Native `Add` constructor. -/
def Add (l r : Node) : Node := .mk (.addOp l r) l.shape none

/-- Native `Minimum` constructor. -/
def Minimum (l r : Node) : Node := .mk (.minimumOp l r) l.shape none

/-- Native `Maximum` constructor. -/
def Maximum (l r : Node) : Node := .mk (.maximumOp l r) l.shape none

/-- Native `Equal` constructor: elementwise boolean comparison node. -/
def Equal (l r : Node) : Node := .mk (.equalOp l r) l.shape none

/-- Native `NotEqual` constructor. -/
def NotEqual (l r : Node) : Node := .mk (.notEqualOp l r) l.shape none

/-- Native `Greater` constructor. -/
def Greater (l r : Node) : Node := .mk (.greaterOp l r) l.shape none

/-- Native `GreaterEq` constructor. -/
def GreaterEq (l r : Node) : Node := .mk (.greaterEqOp l r) l.shape none

/-- Native `Less` constructor. -/
def Less (l r : Node) : Node := .mk (.lessOp l r) l.shape none

/-- Native `LessEq` constructor. -/
def LessEq (l r : Node) : Node := .mk (.lessEqOp l r) l.shape none

/-- Native `Broadcast` constructor: takes the source node, the target shape
and the set of axes to broadcast over. -/
def Broadcast (n : Node) (newShape : TensorShape) (axes : Finset ℕ) : Node :=
  .mk (.broadcastOp n newShape axes) newShape none

/-- Native `Convert` constructor: type-cast node. -/
def Convert (n : Node) (et : ElementType) : Node := .mk (.convertOp n et) n.shape none

/-! ### Helper modules of `ngraph_api.utils` (modelled from the spec) -/

/-- Modelled from the spec: `ngraph_api.utils.types.get_element_type`, the
"element-type resolution lookup (NumericType → native type id)"; the default
NumericType `np.float32` resolves to the engine's 32-bit float element type;
a tag outside the lookup fails. -/
def get_element_type : Dtype → Except NgraphError ElementType
  | .float32 => .ok .f32
  | .float64 => .ok .f64
  | .int32 => .ok .i32
  | .int64 => .ok .i64
  | .unsupported s => .error (.invalidArgument ("Unidentified data type " ++ s))

/-- Whether every entry of a shape is an integer. -/
def all_ints (shape : TensorShape) : Bool :=
  shape.all fun e => match e with | .int _ => true | .other _ => false

/-- Modelled from the spec:
`ngraph_api.utils.input_validation.assert_list_of_ints` — raise an
`InvalidArgument` condition with the given message when any entry of the
list is not an integer. -/
def assert_list_of_ints (shape : TensorShape) (msg : String) :
    Except NgraphError Unit :=
  if all_ints shape then .ok () else .error (.invalidArgument msg)

/-- Modelled from the spec: `ngraph_api.utils.types.make_constant_node` — the
"constant-node builder that accepts a literal value and target type";
when no type is given the engine infers it from the literal (pass-through
default, stored here as `none`). -/
def make_constant_node (value : NumericData) (dtype : Option Dtype) : Node :=
  Constant value dtype

/-- Modelled from the spec: `ngraph_api.utils.types.as_node` — coerce a
NodeInput to a Node handle: an existing handle is returned unchanged, a raw
numeric/array literal is lifted into a Constant node. -/
def as_node : NodeInput → Node
  | .node n => n
  | .raw d => make_constant_node d none

/-- Modelled from the spec:
`ngraph_api.utils.broadcasting.get_broadcast_axes new_shape node_shape axis` —
given `node_shape` (length m) and `new_shape` (length n), fail with
`InvalidArgument` when the target shape has fewer dimensions than the source
shape; otherwise, with no axis supplied, the node's dimensions map to the
trailing axes of `new_shape` and the broadcast axis set is the set of new
leading axes `{0, ..., n-m-1}`; with a start axis supplied, the node's
dimensions occupy axes `{axis, ..., axis+m-1}` and the broadcast axis set is
the complement. -/
def get_broadcast_axes (newShape nodeShape : TensorShape)
    (axis : Option ℕ := none) : Except NgraphError (Finset ℕ) :=
  if newShape.length < nodeShape.length then
    .error (.invalidArgument "New shape has fewer dimensions than the node shape.")
  else
    match axis with
    | none => .ok (Finset.range (newShape.length - nodeShape.length))
    | some a =>
        .ok ((Finset.range newShape.length).filter
          fun i => i < a ∨ a + nodeShape.length ≤ i)

/-- Modelled from the spec: the `unary_op` decorator of
`ngraph_api.utils.decorators` — coerce the single NodeInput operand to a Node
handle, call the wrapped constructor, then apply post-hoc name assignment. -/
def unary_op (f : Node → Node) : NodeInput → Option String → Node :=
  fun x name => (f (as_node x)).setName name

/-- Modelled from the spec: the `binary_op` decorator of
`ngraph_api.utils.decorators` — independently coerce both NodeInput operands
to Node handles, call the wrapped constructor, then apply post-hoc name
assignment. -/
def binary_op (f : Node → Node → Node) :
    NodeInput → NodeInput → Option String → Node :=
  fun x y name => (f (as_node x) (as_node y)).setName name

/-- Modelled from the spec: the `nameable_op` decorator of
`ngraph_api.utils.decorators` — apply post-hoc name assignment to the node
produced by the wrapped function. -/
def nameable_op (r : Except NgraphError Node) (name : Option String) :
    Except NgraphError Node :=
  r.map fun n => n.setName name

/-! ### The factory functions of `ngraph_api/ops.py` -/

/-- `parameter(shape, dtype=np.float32, name=None)`: assert the shape is a
list of integers, resolve the element type, return a native Parameter. -/
def parameter (shape : TensorShape) (dtype : Dtype := .float32)
    (name : Option String := none) : Except NgraphError Node :=
  nameable_op
    (match assert_list_of_ints shape
        "Parameter shape must be a list of integer values." with
      | .error e => .error e
      | .ok _ =>
        match get_element_type dtype with
        | .error e => .error e
        | .ok element_type => .ok (Parameter element_type shape))
    name

/-- `constant(value, dtype=None, name=None)`: Constant node with the value. -/
def constant (value : NumericData) (dtype : Option Dtype := none)
    (name : Option String := none) : Node :=
  (make_constant_node value dtype).setName name

/-- `absolute(node, name=None)`: the body itself re-coerces its operand with
`as_node` before calling the native constructor, as in the source. -/
def absolute : NodeInput → Option String → Node :=
  unary_op fun node => Abs (as_node (.node node))

/-- `sqrt(node, name=None)`. -/
def sqrt : NodeInput → Option String → Node :=
  unary_op fun node => Sqrt node

/-- `exp(node, name=None)`. -/
def exp : NodeInput → Option String → Node :=
  unary_op fun node => Exp node

/-- `log(node, name=None)`. -/
def log : NodeInput → Option String → Node :=
  unary_op fun node => Log node

/-- `negative(node, name=None)`. -/
def negative : NodeInput → Option String → Node :=
  unary_op fun node => Negative node

/-- `floor(node, name=None)`. -/
def floor : NodeInput → Option String → Node :=
  unary_op fun node => Floor node

/-- `ceiling(node, name=None)`. -/
def ceiling : NodeInput → Option String → Node :=
  unary_op fun node => Ceiling node

/-- `divide(left_node, right_node, name=None)`. -/
def divide : NodeInput → NodeInput → Option String → Node :=
  binary_op fun left_node right_node => Divide left_node right_node

/-- `multiply(left_node, right_node, name=None)`. -/
def multiply : NodeInput → NodeInput → Option String → Node :=
  binary_op fun left_node right_node => Multiply left_node right_node

/-- `subtract(left_node, right_node, name=None)`. -/
def subtract : NodeInput → NodeInput → Option String → Node :=
  binary_op fun left_node right_node => Subtract left_node right_node

/-- `add(left_node, right_node, name=None)`. -/
def add : NodeInput → NodeInput → Option String → Node :=
  binary_op fun left_node right_node => Add left_node right_node

/-- `minimum(left_node, right_node, name=None)`. -/
def minimum : NodeInput → NodeInput → Option String → Node :=
  binary_op fun left_node right_node => Minimum left_node right_node

/-- `maximum(left_node, right_node, name=None)`. -/
def maximum : NodeInput → NodeInput → Option String → Node :=
  binary_op fun left_node right_node => Maximum left_node right_node

/-- `equal(left_node, right_node, name=None)`. -/
def equal : NodeInput → NodeInput → Option String → Node :=
  binary_op fun left_node right_node => Equal left_node right_node

/-- `not_equal(left_node, right_node, name=None)`. -/
def not_equal : NodeInput → NodeInput → Option String → Node :=
  binary_op fun left_node right_node => NotEqual left_node right_node

/-- `greater(left_node, right_node, name=None)`. -/
def greater : NodeInput → NodeInput → Option String → Node :=
  binary_op fun left_node right_node => Greater left_node right_node

/-- `greater_eq(left_node, right_node, name=None)`. -/
def greater_eq : NodeInput → NodeInput → Option String → Node :=
  binary_op fun left_node right_node => GreaterEq left_node right_node

/-- `less(left_node, right_node, name=None)`. -/
def less : NodeInput → NodeInput → Option String → Node :=
  binary_op fun left_node right_node => Less left_node right_node

/-- `less_eq(left_node, right_node, name=None)`. -/
def less_eq : NodeInput → NodeInput → Option String → Node :=
  binary_op fun left_node right_node => LessEq left_node right_node

/-- `broadcast(node, new_shape, axis=None, name=None)`: compute the broadcast
axes and pass node, target shape and axes to the native Broadcast
constructor. -/
def broadcast (node : Node) (new_shape : TensorShape) (axis : Option ℕ := none)
    (name : Option String := none) : Except NgraphError Node :=
  nameable_op
    (match get_broadcast_axes new_shape node.shape axis with
      | .error e => .error e
      | .ok axes => .ok (Broadcast node new_shape axes))
    name

/-- `convert(node, new_type, name=None)`: resolve the type tag and construct
the native cast node. -/
def convert (node : Node) (new_type : Dtype) (name : Option String := none) :
    Except NgraphError Node :=
  nameable_op
    (match get_element_type new_type with
      | .error e => .error e
      | .ok new_element_type => .ok (Convert node new_element_type))
    name

/-! ### Operator-overload registration on the native `Node` type

Python executes the module body once at import; lines 166-182 of `ops.py`
assign the factory functions (and reflected-variant lambdas) to hooks of the
native `Node` type's dispatch table.  The stored hooks are modelled in their
invoked form `self -> other -> Node` (the `name` argument takes its default),
and the sequence of assignments is transliterated, in source order, as
`moduleHookAssignments`.  Host-language binary expressions after this
registration are modelled by `pyBinop` / `pyCompare`, following Python
semantics: `x ⊕ y` dispatches to the left operand's hook when it is a Node,
otherwise to the right operand's reflected hook. -/

/-- The names of the dispatch-table slots assigned by the module body. -/
inductive HookName where
  | addH | subH | mulH | divH | truedivH
  | raddH | rsubH | rmulH | rdivH | rtruedivH
  | eqH | neH | ltH | leH | gtH | geH
deriving DecidableEq, Repr

/-- `Node.__rsub__ = lambda left, right: subtract(right, left)`: the first
parameter is the bound Node (the right operand of the host expression), the
second the raw left operand; the literal ends up as the left operand of
`subtract`. -/
def Node.rsubHook (left : Node) (right : NodeInput) : Node :=
  subtract right (.node left) none

/-- `Node.__radd__ = lambda left, right: add(right, left)`. -/
def Node.raddHook (left : Node) (right : NodeInput) : Node :=
  add right (.node left) none

/-- `Node.__rmul__ = lambda left, right: multiply(right, left)`. -/
def Node.rmulHook (left : Node) (right : NodeInput) : Node :=
  multiply right (.node left) none

/-- `Node.__rdiv__ = lambda left, right: divide(right, left)` (and
`__rtruediv__`, which stores an identical lambda). -/
def Node.rdivHook (left : Node) (right : NodeInput) : Node :=
  divide right (.node left) none

/-- A direct binding `Node.__op__ = f` invoked as `self.__op__(other)`. -/
def directHook (f : NodeInput → NodeInput → Option String → Node)
    (self : Node) (other : NodeInput) : Node :=
  f (.node self) other none

/-- The module body of `ops.py`, lines 166-182: the ordered sequence of
dispatch-table assignments performed once at module load. -/
def moduleHookAssignments : List (HookName × (Node → NodeInput → Node)) :=
  [ (.addH, directHook add),
    (.subH, directHook subtract),
    (.mulH, directHook multiply),
    (.divH, directHook divide),
    (.truedivH, directHook divide),
    (.raddH, Node.raddHook),
    (.rsubH, Node.rsubHook),
    (.rmulH, Node.rmulHook),
    (.rdivH, Node.rdivHook),
    (.rtruedivH, Node.rdivHook),
    (.eqH, directHook equal),
    (.neH, directHook not_equal),
    (.ltH, directHook less),
    (.leH, directHook less_eq),
    (.gtH, directHook greater),
    (.geH, directHook greater_eq) ]

/-- One dispatch-table assignment `Node.__hook__ = impl`. -/
def applyAssignment (t : HookName → Option (Node → NodeInput → Node))
    (a : HookName × (Node → NodeInput → Node)) :
    HookName → Option (Node → NodeInput → Node) :=
  fun h => if h = a.1 then some a.2 else t h

/-- Executing the module body once on a prior dispatch table `t0`
(`none` entries model the native type's own defaults). -/
def moduleLoad (t0 : HookName → Option (Node → NodeInput → Node)) :
    HookName → Option (Node → NodeInput → Node) :=
  moduleHookAssignments.foldl applyAssignment t0

/-- Host-language semantics of a binary arithmetic expression `x ⊕ y` after
registration: a Node left operand dispatches to its bound hook; a raw left
operand with a Node right operand dispatches to the Node's reflected hook;
two raw operands never reach this layer. -/
def pyBinop (hook rhook : Node → NodeInput → Node) :
    NodeInput → NodeInput → Option Node
  | .node l, r => some (hook l r)
  | .raw a, .node n => some (rhook n (.raw a))
  | .raw _, .raw _ => none

/-- `x + y` after registration. -/
def pyAdd : NodeInput → NodeInput → Option Node :=
  pyBinop (directHook add) Node.raddHook

/-- `x - y` after registration. -/
def pySub : NodeInput → NodeInput → Option Node :=
  pyBinop (directHook subtract) Node.rsubHook

/-- `x * y` after registration. -/
def pyMul : NodeInput → NodeInput → Option Node :=
  pyBinop (directHook multiply) Node.rmulHook

/-- `x / y` after registration. -/
def pyDiv : NodeInput → NodeInput → Option Node :=
  pyBinop (directHook divide) Node.rdivHook

/-- Host-language semantics of a comparison expression after registration:
the comparison hooks have no reflected variants. -/
def pyCompare (hook : Node → NodeInput → Node) :
    NodeInput → NodeInput → Option Node
  | .node l, r => some (hook l r)
  | .raw _, _ => none

/-- `x == y` after registration (`Node.__eq__ = equal`). -/
def pyEq : NodeInput → NodeInput → Option Node :=
  pyCompare (directHook equal)

/-! ### Helper lemmas -/

/-- Accessor equation for the recorded operator. -/
@[simp]
theorem Node.op_mk (o : Op) (s : TensorShape) (nm : Option String) :
    (Node.mk o s nm).op = o := rfl

/-- Accessor equation for the recorded shape. -/
@[simp]
theorem Node.shape_mk (o : Op) (s : TensorShape) (nm : Option String) :
    (Node.mk o s nm).shape = s := rfl

/-- Accessor equation for the recorded name. -/
@[simp]
theorem Node.name_mk (o : Op) (s : TensorShape) (nm : Option String) :
    (Node.mk o s nm).name = nm := rfl

/-- Name assignment never changes the recorded operator. -/
@[simp]
theorem Node.setName_op (n : Node) (nm : Option String) : (n.setName nm).op = n.op := by
  rcases n with ⟨o, s, m⟩; cases nm <;> rfl

/-- Name assignment never changes the recorded shape. -/
@[simp]
theorem Node.setName_shape (n : Node) (nm : Option String) :
    (n.setName nm).shape = n.shape := by
  rcases n with ⟨o, s, m⟩; cases nm <;> rfl

/-- With no explicit name the handle is returned untouched. -/
@[simp]
theorem Node.setName_none (n : Node) : n.setName none = n := rfl

/-- An explicit name overwrites the stored name. -/
@[simp]
theorem Node.setName_some (n : Node) (s : String) :
    (n.setName (some s)).name = some s := by
  rcases n with ⟨o, sh, m⟩; rfl

/-! ### The claims -/

/-- C1: for a node whose shape has length m and a target shape of length
n ≥ m, `broadcast` with no explicit axis computes the broadcast axis set
`{0, ..., n-m-1}` (the new leading axes) and passes it to the native
`Broadcast` constructor. -/
theorem C1_broadcast_default_axes (node : Node) (new_shape : TensorShape)
    (nm : Option String) (h : node.shape.length ≤ new_shape.length) :
    broadcast node new_shape none nm =
      .ok ((Broadcast node new_shape
        (Finset.range (new_shape.length - node.shape.length))).setName nm) := by
  simp [broadcast, get_broadcast_axes, nameable_op, Except.map, Nat.not_lt.mpr h]

/-- C1, concrete instance: for `n.shape = [3,4]` and `new_shape = [2,3,4]`
the computed broadcast axis set is `{0}`. -/
theorem C1_broadcast_default_axes_witness :
    broadcast (Parameter .f32 [.int 3, .int 4]) [.int 2, .int 3, .int 4]
        none none =
      .ok (Broadcast (Parameter .f32 [.int 3, .int 4]) [.int 2, .int 3, .int 4]
        ({0} : Finset ℕ)) := by
  have h := C1_broadcast_default_axes (Parameter .f32 [.int 3, .int 4])
    [.int 2, .int 3, .int 4] none (by decide)
  simpa [Finset.range_one] using h

/-- C2 counterexample: with `n.shape = [3,4]` and `new_shape = [2,2]` the
target shape does not have fewer dimensions than the source shape, so the
local axis computation succeeds (with the empty broadcast axis set) and
`broadcast` returns a Node rather than a local `InvalidArgument` failure. -/
theorem C2_broadcast_rank_check_counterexample :
    broadcast (Parameter .f32 [.int 3, .int 4]) [.int 2, .int 2] none none =
      .ok (Broadcast (Parameter .f32 [.int 3, .int 4]) [.int 2, .int 2]
        (∅ : Finset ℕ)) := by
  simp [broadcast, get_broadcast_axes, nameable_op, Except.map, Parameter]

/-- C2, amended: `broadcast` fails locally with an `InvalidArgument`
condition, producing no Node, exactly when the target shape has strictly
fewer dimensions than the source node's shape (e.g. `new_shape = [3]` for
`n.shape = [3,4]`); for an equal-rank incompatible target such as `[2,2]`
the local computation succeeds and any failure is the native engine's. -/
theorem C2_broadcast_rank_check (node : Node) (new_shape : TensorShape)
    (nm : Option String) (h : new_shape.length < node.shape.length) :
    broadcast node new_shape none nm =
      .error (.invalidArgument
        "New shape has fewer dimensions than the node shape.") := by
  simp [broadcast, get_broadcast_axes, nameable_op, Except.map, h]

/-- C2 witness: a strictly shorter target shape is rejected locally. -/
theorem C2_broadcast_rank_check_witness :
    broadcast (Parameter .f32 [.int 3, .int 4]) [.int 3] none none =
      .error (.invalidArgument
        "New shape has fewer dimensions than the node shape.") :=
  C2_broadcast_rank_check (Parameter .f32 [.int 3, .int 4]) [.int 3] none
    (by decide)

/-- C3: `parameter` fails with an `InvalidArgument` condition when any entry
of the shape is not an integer, and for a shape of integers it succeeds and
returns a Parameter placeholder whose shape is the given shape. -/
theorem C3_parameter_shape_validation (shape : TensorShape) (nm : Option String) :
    (all_ints shape = false →
      parameter shape .float32 nm =
        .error (.invalidArgument
          "Parameter shape must be a list of integer values.")) ∧
    (all_ints shape = true →
      parameter shape .float32 nm = .ok ((Parameter .f32 shape).setName nm) ∧
      ((Parameter .f32 shape).setName nm).shape = shape) := by
  constructor <;> intro h <;>
    simp [parameter, assert_list_of_ints, h, get_element_type, nameable_op,
      Except.map, Parameter]

/-- C3 witness: `parameter [2, "x"]` fails with the `InvalidArgument`
condition; `parameter [2, 3]` succeeds with shape `[2,3]`. -/
theorem C3_parameter_shape_validation_witness :
    parameter [ShapeEntry.int 2, ShapeEntry.other "x"] =
      .error (.invalidArgument
        "Parameter shape must be a list of integer values.") ∧
    parameter [ShapeEntry.int 2, ShapeEntry.int 3] =
      .ok (Parameter .f32 [ShapeEntry.int 2, ShapeEntry.int 3]) ∧
    (Parameter .f32 [ShapeEntry.int 2, ShapeEntry.int 3]).shape =
      [ShapeEntry.int 2, ShapeEntry.int 3] :=
  ⟨(C3_parameter_shape_validation [ShapeEntry.int 2, ShapeEntry.other "x"]
      none).1 (by decide),
   ((C3_parameter_shape_validation [ShapeEntry.int 2, ShapeEntry.int 3]
      none).2 (by decide)).1,
   ((C3_parameter_shape_validation [ShapeEntry.int 2, ShapeEntry.int 3]
      none).2 (by decide)).2⟩

/-- C4: every factory accepting a NodeInput coerces a raw numeric/array
literal to a Constant node before the native constructor is called: the
coercion of a raw literal is a Constant node, and for each unary factory
and each operand position of each binary factory, the operand recorded by
the native constructor is that Constant node, never the raw literal. -/
theorem C4_raw_literals_are_lifted (d e : NumericData) (nm : Option String) :
    as_node (.raw d) = make_constant_node d none ∧
    (make_constant_node d none).op = .constantOp d none ∧
    (absolute (.raw d) nm).op.args = [make_constant_node d none] ∧
    (sqrt (.raw d) nm).op.args = [make_constant_node d none] ∧
    (exp (.raw d) nm).op.args = [make_constant_node d none] ∧
    (log (.raw d) nm).op.args = [make_constant_node d none] ∧
    (negative (.raw d) nm).op.args = [make_constant_node d none] ∧
    (floor (.raw d) nm).op.args = [make_constant_node d none] ∧
    (ceiling (.raw d) nm).op.args = [make_constant_node d none] ∧
    (divide (.raw d) (.raw e) nm).op.args =
      [make_constant_node d none, make_constant_node e none] ∧
    (multiply (.raw d) (.raw e) nm).op.args =
      [make_constant_node d none, make_constant_node e none] ∧
    (subtract (.raw d) (.raw e) nm).op.args =
      [make_constant_node d none, make_constant_node e none] ∧
    (add (.raw d) (.raw e) nm).op.args =
      [make_constant_node d none, make_constant_node e none] ∧
    (minimum (.raw d) (.raw e) nm).op.args =
      [make_constant_node d none, make_constant_node e none] ∧
    (maximum (.raw d) (.raw e) nm).op.args =
      [make_constant_node d none, make_constant_node e none] ∧
    (equal (.raw d) (.raw e) nm).op.args =
      [make_constant_node d none, make_constant_node e none] ∧
    (not_equal (.raw d) (.raw e) nm).op.args =
      [make_constant_node d none, make_constant_node e none] ∧
    (greater (.raw d) (.raw e) nm).op.args =
      [make_constant_node d none, make_constant_node e none] ∧
    (greater_eq (.raw d) (.raw e) nm).op.args =
      [make_constant_node d none, make_constant_node e none] ∧
    (less (.raw d) (.raw e) nm).op.args =
      [make_constant_node d none, make_constant_node e none] ∧
    (less_eq (.raw d) (.raw e) nm).op.args =
      [make_constant_node d none, make_constant_node e none] := by
  cases nm <;>
    exact ⟨rfl, rfl, rfl, rfl, rfl, rfl, rfl, rfl, rfl, rfl, rfl, rfl, rfl,
      rfl, rfl, rfl, rfl, rfl, rfl, rfl, rfl⟩

/-- C5: after overload registration the reflected operator forms place the
raw literal on the left: `a + n`, `a - n`, `a * n`, `a / n` evaluate to
`add`/`subtract`/`multiply`/`divide` with the lifted literal as left operand
and the node as right operand; `n - a` and `a - n` both succeed, their
operand lists are mirror images, and they are distinct nodes whenever the
node differs from the lifted literal. -/
theorem C5_reflected_operands (a : NumericData) (n : Node) :
    pyAdd (.raw a) (.node n) = some (add (.raw a) (.node n) none) ∧
    pySub (.raw a) (.node n) = some (subtract (.raw a) (.node n) none) ∧
    pyMul (.raw a) (.node n) = some (multiply (.raw a) (.node n) none) ∧
    pyDiv (.raw a) (.node n) = some (divide (.raw a) (.node n) none) ∧
    pySub (.node n) (.raw a) = some (subtract (.node n) (.raw a) none) ∧
    (subtract (.raw a) (.node n) none).op.args = [make_constant_node a none, n] ∧
    (subtract (.node n) (.raw a) none).op.args = [n, make_constant_node a none] ∧
    (n ≠ make_constant_node a none →
      subtract (.raw a) (.node n) none ≠ subtract (.node n) (.raw a) none) := by
  refine ⟨rfl, rfl, rfl, rfl, rfl, rfl, rfl, fun hne heq => hne ?_⟩
  have hop := congrArg Node.op heq
  simp [subtract, binary_op, as_node, Subtract] at hop
  exact hop.2

/-- C5 witness: for a parameter node and the literal 5, the mirrored
subtractions are distinct nodes. -/
theorem C5_reflected_operands_witness :
    Parameter .f32 [.int 2] ≠ make_constant_node (.scalar 5) none ∧
    subtract (.raw (.scalar 5)) (.node (Parameter .f32 [.int 2])) none ≠
      subtract (.node (Parameter .f32 [.int 2])) (.raw (.scalar 5)) none :=
  ⟨by decide,
   (C5_reflected_operands (.scalar 5) (Parameter .f32 [.int 2])).2.2.2.2.2.2.2
     (by decide)⟩

/-- C6: after overload registration, `node1 == node2` dispatches to the
bound hook, which is exactly a direct call `equal(node1, node2)`, and the
result is a Node carrying the elementwise Equal operator — not a
host-language boolean. -/
theorem C6_eq_overload (n1 n2 : Node) :
    pyEq (.node n1) (.node n2) = some (equal (.node n1) (.node n2) none) ∧
    equal (.node n1) (.node n2) none = Equal n1 n2 ∧
    (Equal n1 n2).op = .equalOp n1 n2 :=
  ⟨rfl, rfl, rfl⟩

/-- C7: an explicit `name` argument makes the returned handle's name equal
the given string, omitting it keeps the engine's default-generated name
(the freshly constructed native node's own name), and the post-hoc name
assignment alters no other attribute of the node: shown for the `add`
factory and for the shared name-assignment step every factory ends with. -/
theorem C7_post_hoc_naming (x y : NodeInput) (s : String) (n : Node) :
    (add x y (some s)).name = some s ∧
    (add x y none).name = (Add (as_node x) (as_node y)).name ∧
    (add x y (some s)).op = (add x y none).op ∧
    (add x y (some s)).shape = (add x y none).shape ∧
    (n.setName (some s)).name = some s ∧
    (n.setName (some s)).op = n.op ∧
    (n.setName (some s)).shape = n.shape ∧
    n.setName none = n := by
  rcases n with ⟨o, sh, m⟩
  exact ⟨rfl, rfl, rfl, rfl, rfl, rfl, rfl, rfl⟩

/-- C8: `parameter` called without an explicit dtype produces a Parameter
node whose element type is the engine's 32-bit float, resolved from the
default `np.float32` through the element-type lookup. -/
theorem C8_parameter_default_dtype (shape : TensorShape)
    (h : all_ints shape = true) :
    get_element_type .float32 = .ok .f32 ∧
    parameter shape = .ok (Parameter .f32 shape) ∧
    (Parameter .f32 shape).op = .parameterOp .f32 shape := by
  refine ⟨rfl, ?_, rfl⟩
  simp [parameter, assert_list_of_ints, h, get_element_type, nameable_op,
    Except.map]

/-- C8 witness at the shape `[2,3]`. -/
theorem C8_parameter_default_dtype_witness :
    all_ints [ShapeEntry.int 2, ShapeEntry.int 3] = true ∧
    parameter [ShapeEntry.int 2, ShapeEntry.int 3] =
      .ok (Parameter .f32 [ShapeEntry.int 2, ShapeEntry.int 3]) :=
  ⟨by decide,
   (C8_parameter_default_dtype [ShapeEntry.int 2, ShapeEntry.int 3]
     (by decide)).2.1⟩

/-- C9: the module body of `ops.py` assigns each of the sixteen dispatch
hooks (the four arithmetic hooks, `__truediv__`, their five reflected
variants and the six comparison hooks) exactly once, in source order and
with no later reassignment or reversal; the table after the load is fully
determined by these assignments alone (independent of any prior table
state), binding each hook to the corresponding factory; apart from this
load-time registration the factories are pure functions of their
arguments, so nothing else mutates shared state. -/
theorem C9_overload_registration_once
    (t0 t1 : HookName → Option (Node → NodeInput → Node)) (h : HookName) :
    moduleHookAssignments.map Prod.fst =
      [.addH, .subH, .mulH, .divH, .truedivH, .raddH, .rsubH, .rmulH,
       .rdivH, .rtruedivH, .eqH, .neH, .ltH, .leH, .gtH, .geH] ∧
    (moduleHookAssignments.map Prod.fst).Nodup ∧
    moduleLoad t0 h = moduleLoad t1 h ∧
    moduleLoad t0 .addH = some (directHook add) ∧
    moduleLoad t0 .subH = some (directHook subtract) ∧
    moduleLoad t0 .mulH = some (directHook multiply) ∧
    moduleLoad t0 .divH = some (directHook divide) ∧
    moduleLoad t0 .truedivH = some (directHook divide) ∧
    moduleLoad t0 .raddH = some Node.raddHook ∧
    moduleLoad t0 .rsubH = some Node.rsubHook ∧
    moduleLoad t0 .rmulH = some Node.rmulHook ∧
    moduleLoad t0 .rdivH = some Node.rdivHook ∧
    moduleLoad t0 .rtruedivH = some Node.rdivHook ∧
    moduleLoad t0 .eqH = some (directHook equal) ∧
    moduleLoad t0 .neH = some (directHook not_equal) ∧
    moduleLoad t0 .ltH = some (directHook less) ∧
    moduleLoad t0 .leH = some (directHook less_eq) ∧
    moduleLoad t0 .gtH = some (directHook greater) ∧
    moduleLoad t0 .geH = some (directHook greater_eq) := by
  refine ⟨rfl, by decide, ?_, rfl, rfl, rfl, rfl, rfl, rfl, rfl, rfl, rfl,
    rfl, rfl, rfl, rfl, rfl, rfl, rfl⟩
  cases h <;> rfl

/-- C10: in `parameter` the shape validation precedes the element-type
resolution: for any shape with a non-integer entry the call fails with the
shape `InvalidArgument` message for every dtype argument, including an
unsupported dtype whose own lookup would fail differently — so the
element-type lookup is never reached. -/
theorem C10_shape_check_precedes_dtype (shape : TensorShape) (dtype : Dtype)
    (nm : Option String) (s : String) (h : all_ints shape = false) :
    parameter shape dtype nm =
      .error (.invalidArgument
        "Parameter shape must be a list of integer values.") ∧
    get_element_type (.unsupported s) =
      .error (.invalidArgument ("Unidentified data type " ++ s)) := by
  refine ⟨?_, rfl⟩
  simp [parameter, assert_list_of_ints, h, nameable_op, Except.map]

/-- C10 witness: a bad shape together with an unsupported dtype still
reports the shape error. -/
theorem C10_shape_check_precedes_dtype_witness :
    all_ints [ShapeEntry.int 2, ShapeEntry.other "x"] = false ∧
    parameter [ShapeEntry.int 2, ShapeEntry.other "x"] (.unsupported "q") =
      .error (.invalidArgument
        "Parameter shape must be a list of integer values.") :=
  ⟨by decide,
   (C10_shape_check_precedes_dtype [ShapeEntry.int 2, ShapeEntry.other "x"]
     (.unsupported "q") none "q" (by decide)).1⟩

end Ngraph
